import Mathlib

/-!
Shallow embedding of the Event & RSVP manager event/participant mutation
logic (Express route handlers over a CouchDB-style document store), together
with the JWT auth middleware.

Sources embedded:
  * participants routes: POST /, DELETE /:id, DELETE /event/:eventId/user/:userId
  * events routes: PUT /:id, DELETE /:id
  * middleware/auth.js

Modelling conventions:
  * The document store is a pair of lists (events, participants); `get` is
    `List.find?` on the document id, the `by_event` view is a filter on
    `eventId` (secondary-key lookup), `insert` of a fresh document appends
    (the store-assigned id comes from a counter), and `destroy` removes the
    document with the given id.
  * A store call that can throw is given a Bool/"which ids fail" parameter:
    `lookupOk` for the by-event view call inside RSVP creation (its failure
    is swallowed by the inner try/catch of the handler), `viewOk`/`destroyFails`
    for the cascade-delete fan-out.
  * `console.error` calls on the modelled (non-500) paths are counted in a
    `Nat` component so that logging behaviour is part of the result.
  * HTTP statuses and `error` message strings are recovered from outcome
    constructors by dedicated functions.
-/

namespace EventRsvp

/-- A user document (the auth middleware attaches it as `req.user`). -/
structure User where
  id : String
  name : String
  email : String
deriving Repr, DecidableEq

/-- An event document as created by POST /events. -/
structure Event where
  id : String
  title : String
  description : String
  date : String
  location : String
  maxParticipants : Option Nat
  creatorId : String
  creatorName : String
  createdAt : String
  updatedAt : String
deriving Repr, DecidableEq

/-- A participant (RSVP) document as created by POST /participants. -/
structure Participant where
  id : String
  eventId : String
  userId : String
  userName : String
  userEmail : String
  eventTitle : String
  eventDate : String
  rsvpDate : String
deriving Repr, DecidableEq

/-- The document store: the `events` and `participants` databases, plus a
counter supplying store-assigned ids. -/
structure State where
  events : List Event
  participants : List Participant
  nextId : Nat
deriving Repr, DecidableEq

/-- The `queries/by_event` view: all participant documents whose `eventId`
equals the key. -/
def viewByEvent (ps : List Participant) (eventId : String) : List Participant :=
  ps.filter (fun p => p.eventId == eventId)

/-- Number of committed participant documents referencing an event. -/
def countByEvent (ps : List Participant) (eventId : String) : Nat :=
  (viewByEvent ps eventId).length

/-- Number of participant documents for one (eventId, userId) pair. -/
def pairCount (ps : List Participant) (eventId userId : String) : Nat :=
  (ps.filter (fun p => p.eventId == eventId && p.userId == userId)).length

/-- The store-assigned id for the next inserted document. -/
def freshId (s : State) : String :=
  toString s.nextId

/-- The participant object built by POST /participants before insertion:
snapshots of the user and of the display fields of the event. -/
def mkParticipant (s : State) (caller : User) (eventId : String) (event : Event)
    (now : String) : Participant :=
  { id := freshId s
    eventId := eventId
    userId := caller.id
    userName := caller.name
    userEmail := caller.email
    eventTitle := event.title
    eventDate := event.date
    rsvpDate := now }

/-- JS truthiness of `event.maxParticipants && rows.length >= event.maxParticipants`:
`null` (and `0`) is falsy, so the capacity check only fires for a positive
capacity. -/
def capacityFull (maxParticipants : Option Nat) (count : Nat) : Bool :=
  match maxParticipants with
  | none => false
  | some cap => decide (0 < cap) && decide (cap ≤ count)

/-- Outcome of POST /participants (RSVP creation). -/
inductive RsvpOutcome where
  | created
  | eventNotFound
  | alreadyRsvpd
  | eventFull
deriving Repr, DecidableEq

/-- HTTP status of each RSVP-creation outcome. -/
def rsvpStatus : RsvpOutcome → Nat
  | .created => 201
  | .eventNotFound => 404
  | .alreadyRsvpd => 400
  | .eventFull => 400

/-- The `error` field of each RSVP-creation response. -/
def rsvpError : RsvpOutcome → Option String
  | .created => none
  | .eventNotFound => some "Event not found"
  | .alreadyRsvpd => some "Already RSVP\x27d to this event"
  | .eventFull => some "Event is full"

/-- POST /participants: RSVP creation.  The event is fetched by id (404 when
absent).  The duplicate check and the capacity check both live inside a
try/catch around the `by_event` view call; `lookupOk = false` models that
call throwing, in which case the catch swallows the error ("View might not
exist, continue") and the handler falls through to the insert. -/
def rsvpCreate (s : State) (caller : User) (eventId : String) (lookupOk : Bool)
    (now : String) : RsvpOutcome × State :=
  match s.events.find? (fun e => e.id == eventId) with
  | none => (.eventNotFound, s)
  | some event =>
    let rows := viewByEvent s.participants eventId
    let inserted : RsvpOutcome × State :=
      (.created,
        { s with
            participants := s.participants ++ [mkParticipant s caller eventId event now]
            nextId := s.nextId + 1 })
    if lookupOk then
      if rows.any (fun p => p.userId == caller.id) then
        (.alreadyRsvpd, s)
      else if capacityFull event.maxParticipants rows.length then
        (.eventFull, s)
      else
        inserted
    else
      inserted

/-- One authenticated call of POST /participants, for reasoning about
sequences of RSVP-creation requests. -/
structure RsvpCall where
  caller : User
  eventId : String
  lookupOk : Bool
  now : String
deriving Repr, DecidableEq

/-- Sequential execution of a list of RSVP-creation calls. -/
def runRsvps (s : State) (calls : List RsvpCall) : State :=
  calls.foldl (fun st c => (rsvpCreate st c.caller c.eventId c.lookupOk c.now).2) s

/-- Outcome of the two cancellation routes. -/
inductive CancelOutcome where
  | ok
  | notFound
  | forbidden
deriving Repr, DecidableEq

/-- HTTP status of each cancellation outcome. -/
def cancelStatus : CancelOutcome → Nat
  | .ok => 200
  | .notFound => 404
  | .forbidden => 403

/-- DELETE /participants/:id: cancel an RSVP by participant id.  `get` throws
404 when the document is absent; otherwise the owner check runs before the
destroy. -/
def cancelById (s : State) (callerId : String) (pid : String) :
    CancelOutcome × State :=
  match s.participants.find? (fun p => p.id == pid) with
  | none => (.notFound, s)
  | some participant =>
    if participant.userId != callerId then
      (.forbidden, s)
    else
      (.ok, { s with participants := s.participants.eraseP (fun q => q.id == pid) })

/-- DELETE /participants/event/:eventId/user/:userId: cancel by pair.  The
self check runs first; then the `by_event` view is filtered with
`rows.find(row => row.doc.userId === userId)` and the first match is
destroyed.  The third component counts `console.error` calls on the modelled
paths (there are none outside the 500 handler). -/
def cancelByPair (s : State) (callerId eventId userId : String) :
    CancelOutcome × State × Nat :=
  if userId != callerId then
    (.forbidden, s, 0)
  else
    match (viewByEvent s.participants eventId).find? (fun p => p.userId == userId) with
    | none => (.notFound, s, 0)
    | some participant =>
      (.ok,
        { s with participants := s.participants.eraseP (fun q => q.id == participant.id) },
        0)

/-- Outcome of DELETE /events/:id. -/
inductive DeleteOutcome where
  | ok
  | notFound
  | forbidden
deriving Repr, DecidableEq

/-- DELETE /events/:id: cascade delete.  After the creator check, the handler
fetches the `by_event` rows and fires one destroy per row through
`Promise.all`; every destroy is initiated (the promises are created before
`Promise.all` awaits), so one failure does not prevent the other deletions,
but the surrounding try/catch fires once for the whole fan-out, producing a
single `console.error`.  The event itself is then destroyed and the response
reports only event-deletion success.  `viewOk` models the view call
succeeding; `destroyFails pid` models the destroy of participant `pid`
failing.  The third component counts `console.error` calls. -/
def deleteEvent (s : State) (callerId eventId : String) (viewOk : Bool)
    (destroyFails : String → Bool) : DeleteOutcome × State × Nat :=
  match s.events.find? (fun e => e.id == eventId) with
  | none => (.notFound, s, 0)
  | some event =>
    if event.creatorId != callerId then
      (.forbidden, s, 0)
    else
      let rows := viewByEvent s.participants eventId
      let newParticipants :=
        if viewOk then
          s.participants.filter (fun p => !(p.eventId == eventId) || destroyFails p.id)
        else
          s.participants
      let logs : Nat :=
        if viewOk then
          if rows.any (fun p => destroyFails p.id) then 1 else 0
        else 1
      (.ok,
        { s with
            participants := newParticipants
            events := s.events.eraseP (fun e => e.id == eventId) },
        logs)

/-- The optional fields of a PUT /events/:id request body (all validated:
strings nonempty when supplied, maxParticipants an integer ≥ 1). -/
structure UpdateFields where
  title : Option String
  description : Option String
  date : Option String
  location : Option String
  maxParticipants : Option Nat
deriving Repr, DecidableEq

/-- JS truthiness of `if (field) event.field = field`: an absent field, and
an empty string, leave the stored value in place. -/
def setStr (supplied : Option String) (old : String) : String :=
  match supplied with
  | none => old
  | some v => if v == "" then old else v

/-- The field merge of PUT /events/:id: each supplied truthy field
overwrites, `maxParticipants` overwrites whenever supplied
(`!== undefined`), and `updatedAt` is refreshed. -/
def applyUpdate (e : Event) (u : UpdateFields) (now : String) : Event :=
  { e with
      title := setStr u.title e.title
      description := setStr u.description e.description
      date := setStr u.date e.date
      location := setStr u.location e.location
      maxParticipants :=
        match u.maxParticipants with
        | none => e.maxParticipants
        | some v => some v
      updatedAt := now }

/-- Outcome of PUT /events/:id. -/
inductive UpdateOutcome where
  | ok
  | notFound
  | forbidden
deriving Repr, DecidableEq

/-- PUT /events/:id: fetch (404 when absent), creator check (403), merge the
supplied fields and write the document back under the same id. -/
def updateEvent (s : State) (callerId eventId : String) (u : UpdateFields)
    (now : String) : UpdateOutcome × State :=
  match s.events.find? (fun e => e.id == eventId) with
  | none => (.notFound, s)
  | some event =>
    if event.creatorId != callerId then
      (.forbidden, s)
    else
      let updated := applyUpdate event u now
      (.ok,
        { s with events := s.events.map (fun e => if e.id == eventId then updated else e) })

/-- Outcome of the auth middleware. -/
inductive AuthOutcome where
  | ok (user : User)
  | noToken
  | invalidToken
  | userNotFound
deriving Repr, DecidableEq

/-- middleware/auth.js: extract the bearer token, verify it (`verify` yields
the decoded user id, `none` for an invalid/expired token), then fetch the
user document; a missing user is answered from the inner catch. -/
def authMiddleware (users : List User) (token : Option String)
    (verify : String → Option String) : AuthOutcome :=
  match token with
  | none => .noToken
  | some t =>
    match verify t with
    | none => .invalidToken
    | some decodedId =>
      match users.find? (fun u => u.id == decodedId) with
      | none => .userNotFound
      | some user => .ok user

/-- HTTP status of each auth outcome (200 standing for "next() is called"). -/
def authStatus : AuthOutcome → Nat
  | .ok _ => 200
  | .noToken => 401
  | .invalidToken => 401
  | .userNotFound => 401

/-- The `error` field of each auth failure response. -/
def authError : AuthOutcome → Option String
  | .ok _ => none
  | .noToken => some "Authentication required"
  | .invalidToken => some "Invalid token"
  | .userNotFound => some "User not found"

def uAlice : User := { id := "ua", name := "Alice", email := "alice@example.com" }

def uBob : User := { id := "ub", name := "Bob", email := "bob@example.com" }

def evCap1 : Event :=
  { id := "e1", title := "Standup", description := "daily", date := "2025-01-01T09:00:00Z"
    location := "Room A", maxParticipants := some 1, creatorId := "ua"
    creatorName := "Alice", createdAt := "t0", updatedAt := "t0" }

def sCap1 : State := { events := [evCap1], participants := [], nextId := 0 }

def pBobOne : Participant :=
  { id := "p0", eventId := "e1", userId := "ub", userName := "Bob"
    userEmail := "bob@example.com", eventTitle := "Standup"
    eventDate := "2025-01-01T09:00:00Z", rsvpDate := "t1" }

def sFull : State := { events := [evCap1], participants := [pBobOne], nextId := 1 }

def evNoCap : Event :=
  { id := "e2", title := "Picnic", description := "fun", date := "2025-02-01T12:00:00Z"
    location := "Park", maxParticipants := none, creatorId := "ua"
    creatorName := "Alice", createdAt := "t0", updatedAt := "t0" }

def sNoCap : State := { events := [evNoCap], participants := [], nextId := 0 }

def pAliceTwo : Participant :=
  { id := "p1", eventId := "e2", userId := "ua", userName := "Alice"
    userEmail := "alice@example.com", eventTitle := "Picnic"
    eventDate := "2025-02-01T12:00:00Z", rsvpDate := "t1" }

def pBobTwo : Participant :=
  { id := "p2", eventId := "e2", userId := "ub", userName := "Bob"
    userEmail := "bob@example.com", eventTitle := "Picnic"
    eventDate := "2025-02-01T12:00:00Z", rsvpDate := "t2" }

def sTwoRsvps : State := { events := [evNoCap], participants := [pAliceTwo, pBobTwo], nextId := 3 }

def pDupA : Participant :=
  { id := "q1", eventId := "e1", userId := "ua", userName := "Alice"
    userEmail := "alice@example.com", eventTitle := "Standup"
    eventDate := "2025-01-01T09:00:00Z", rsvpDate := "t1" }

def pDupB : Participant :=
  { id := "q2", eventId := "e1", userId := "ua", userName := "Alice"
    userEmail := "alice@example.com", eventTitle := "Standup"
    eventDate := "2025-01-01T09:00:00Z", rsvpDate := "t2" }

def sDup : State := { events := [evCap1], participants := [pDupA, pDupB], nextId := 9 }

def emptyUpdate : UpdateFields :=
  { title := none, description := none, date := none, location := none, maxParticipants := none }

def titleUpdate : UpdateFields :=
  { title := some "Evening Standup", description := none, date := none, location := none
    maxParticipants := none }

theorem rsvpCreate_events (s : State) (c : User) (eid : String) (lk : Bool) (now : String) :
    (rsvpCreate s c eid lk now).2.events = s.events := by
  unfold rsvpCreate
  split
  · rfl
  · dsimp only
    split
    · split
      · rfl
      · split
        · rfl
        · rfl
    · rfl

theorem countByEvent_append (ps : List Participant) (p : Participant) (eid : String) :
    countByEvent (ps ++ [p]) eid =
      countByEvent ps eid + (if p.eventId == eid then 1 else 0) := by
  unfold countByEvent viewByEvent
  rw [List.filter_append]
  simp only [List.length_append]
  split
  · rename_i h
    simp [List.filter, h]
  · rename_i h
    simp only [Bool.not_eq_true] at h
    simp [List.filter, h]

theorem pairCount_append (ps : List Participant) (p : Participant) (eid uid : String) :
    pairCount (ps ++ [p]) eid uid =
      pairCount ps eid uid + (if p.eventId == eid && p.userId == uid then 1 else 0) := by
  unfold pairCount
  rw [List.filter_append]
  simp only [List.length_append]
  split
  · rename_i h
    simp [List.filter, h]
  · rename_i h
    simp only [Bool.not_eq_true] at h
    simp [List.filter, h]

theorem capacityFull_some_false_iff (cap count : Nat) (hpos : 0 < cap) :
    capacityFull (some cap) count = false ↔ count < cap := by
  unfold capacityFull
  simp [hpos, Nat.lt_iff_add_one_le, Nat.not_le]

theorem pairCount_eq_zero_of_not_any (ps : List Participant) (eid uid : String)
    (h : (viewByEvent ps eid).any (fun p => p.userId == uid) = false) :
    pairCount ps eid uid = 0 := by
  unfold pairCount
  rw [List.length_eq_zero, List.filter_eq_nil_iff]
  have h2 : ∀ x ∈ ps, x.eventId = eid → ¬ x.userId = uid := by
    simpa [viewByEvent] using h
  intro a ha hcontra
  simp only [Bool.and_eq_true, beq_iff_eq] at hcontra
  exact h2 a ha hcontra.1 hcontra.2

theorem rsvpCreate_shape (st : State) (c : User) (eid2 : String) (lk : Bool) (now : String) :
    (rsvpCreate st c eid2 lk now).2.participants = st.participants ∨
    ∃ ev, st.events.find? (fun x => x.id == eid2) = some ev ∧
      (rsvpCreate st c eid2 lk now).2.participants
        = st.participants ++ [mkParticipant st c eid2 ev now] ∧
      (lk = true →
        (viewByEvent st.participants eid2).any (fun p => p.userId == c.id) = false ∧
        capacityFull ev.maxParticipants (viewByEvent st.participants eid2).length = false) := by
  unfold rsvpCreate
  cases hf2 : st.events.find? (fun x => x.id == eid2) with
  | none => exact Or.inl rfl
  | some ev =>
    dsimp only
    cases lk with
    | false =>
      refine Or.inr ⟨ev, rfl, ?_, by simp⟩
      simp
    | true =>
      by_cases hdup : (viewByEvent st.participants eid2).any (fun p => p.userId == c.id) = true
      · simp [hdup]
      · by_cases hfull :
            capacityFull ev.maxParticipants (viewByEvent st.participants eid2).length = true
        · simp [hdup, hfull]
        · refine Or.inr ⟨ev, rfl, ?_, fun _ => ⟨by simpa using hdup, by simpa using hfull⟩⟩
          simp [hdup, hfull]

theorem rsvpCreate_countByEvent_le (st : State) (c : User) (eid2 now eid : String)
    (e : Event) (cap : Nat)
    (hfind : st.events.find? (fun x => x.id == eid) = some e)
    (hcap : e.maxParticipants = some cap) (hpos : 0 < cap)
    (hle : countByEvent st.participants eid ≤ cap) :
    countByEvent (rsvpCreate st c eid2 true now).2.participants eid ≤ cap := by
  rcases rsvpCreate_shape st c eid2 true now with h | ⟨ev, hf2, hparts, hchecks⟩
  · rw [h]; exact hle
  · rw [hparts, countByEvent_append]
    by_cases heid : (mkParticipant st c eid2 ev now).eventId == eid
    · have heq : eid2 = eid := by simpa [mkParticipant] using heid
      subst heq
      rw [hf2] at hfind
      have hev : ev = e := Option.some.inj hfind
      subst hev
      have hfull := (hchecks rfl).2
      rw [hcap] at hfull
      have hlt : (viewByEvent st.participants eid2).length < cap :=
        (capacityFull_some_false_iff _ _ hpos).1 hfull
      simpa [heid, countByEvent] using hlt
    · simp only [Bool.not_eq_true] at heid
      simpa [heid] using hle

theorem runRsvps_countByEvent_le (eid : String) (e : Event) (cap : Nat)
    (hcap : e.maxParticipants = some cap) (hpos : 0 < cap) (calls : List RsvpCall) :
    ∀ st : State, st.events.find? (fun x => x.id == eid) = some e →
      (∀ cl ∈ calls, cl.lookupOk = true) →
      countByEvent st.participants eid ≤ cap →
      countByEvent (runRsvps st calls).participants eid ≤ cap := by
  induction calls with
  | nil => intro st _ _ hle; simpa [runRsvps] using hle
  | cons cl cls ih =>
    intro st hfind hok hle
    have hok1 : cl.lookupOk = true := hok cl (List.mem_cons_self _ _)
    have hstep :
        countByEvent (rsvpCreate st cl.caller cl.eventId cl.lookupOk cl.now).2.participants eid
          ≤ cap := by
      rw [hok1]
      exact rsvpCreate_countByEvent_le st cl.caller cl.eventId cl.now eid e cap hfind hcap hpos hle
    have hfind2 :
        (rsvpCreate st cl.caller cl.eventId cl.lookupOk cl.now).2.events.find?
            (fun x => x.id == eid) = some e := by
      rw [rsvpCreate_events]; exact hfind
    exact ih _ hfind2 (fun x hx => hok x (List.mem_cons_of_mem _ hx)) hstep

theorem rsvpCreate_pairCount_le (st : State) (c : User) (eid2 now eid uid : String)
    (hle : pairCount st.participants eid uid ≤ 1) :
    pairCount (rsvpCreate st c eid2 true now).2.participants eid uid ≤ 1 := by
  rcases rsvpCreate_shape st c eid2 true now with h | ⟨ev, hf2, hparts, hchecks⟩
  · rw [h]; exact hle
  · rw [hparts, pairCount_append]
    by_cases hmatch :
        ((mkParticipant st c eid2 ev now).eventId == eid
          && (mkParticipant st c eid2 ev now).userId == uid) = true
    · simp only [Bool.and_eq_true, beq_iff_eq, mkParticipant] at hmatch
      obtain ⟨heid, huid⟩ := hmatch
      subst heid
      subst huid
      have hdup := (hchecks rfl).1
      have h0 : pairCount st.participants eid2 c.id = 0 :=
        pairCount_eq_zero_of_not_any _ _ _ hdup
      simp [mkParticipant, h0]
    · simp only [Bool.not_eq_true] at hmatch
      simpa [hmatch] using hle

theorem runRsvps_pairCount_le (eid uid : String) (calls : List RsvpCall) :
    ∀ st : State, (∀ cl ∈ calls, cl.lookupOk = true) →
      pairCount st.participants eid uid ≤ 1 →
      pairCount (runRsvps st calls).participants eid uid ≤ 1 := by
  induction calls with
  | nil => intro st _ hle; simpa [runRsvps] using hle
  | cons cl cls ih =>
    intro st hok hle
    have hok1 : cl.lookupOk = true := hok cl (List.mem_cons_self _ _)
    have hstep :
        pairCount (rsvpCreate st cl.caller cl.eventId cl.lookupOk cl.now).2.participants eid uid
          ≤ 1 := by
      rw [hok1]
      exact rsvpCreate_pairCount_le st cl.caller cl.eventId cl.now eid uid hle
    exact ih _ (fun x hx => hok x (List.mem_cons_of_mem _ hx)) hstep

theorem viewByEvent_any_of_pairCount_pos (ps : List Participant) (eid uid : String)
    (h : 1 ≤ pairCount ps eid uid) :
    (viewByEvent ps eid).any (fun p => p.userId == uid) = true := by
  unfold pairCount at h
  have hne : ps.filter (fun p => p.eventId == eid && p.userId == uid) ≠ [] := by
    intro hnil
    rw [hnil] at h
    simp at h
  obtain ⟨p, hp⟩ := List.exists_mem_of_ne_nil _ hne
  have hmem := List.mem_filter.1 hp
  have hand := hmem.2
  simp only [Bool.and_eq_true] at hand
  rw [List.any_eq_true]
  exact ⟨p, List.mem_filter.2 ⟨hmem.1, hand.1⟩, hand.2⟩

/-- Claim C1 counterexample: event e1 has capacity 1, yet after the sequence
of RSVP-creation calls in which the by-event lookup of the second call throws
(and the handler swallows the error, skipping both checks), two committed
participants reference e1. -/
theorem rsvp_capacity_exceeded_counterexample :
    evCap1.maxParticipants = some 1
    ∧ countByEvent (runRsvps sCap1
        [⟨uAlice, "e1", true, "t1"⟩, ⟨uBob, "e1", false, "t2"⟩]).participants "e1" = 2 := by
  decide

/-- Claim C1 (amended): for a capacity-limited event, any sequence of
sequentially executed RSVP-creation calls whose by-event lookups all succeed
keeps the committed participant count at or below capacity; a single call
with a successful lookup that finds the count not below capacity leaves the
store unchanged and fails with 400 — with "Event is full" whenever the
caller holds no existing RSVP. -/
theorem rsvp_capacity_bounded_of_lookup_ok
    (s : State) (calls : List RsvpCall) (caller : User) (now eid : String)
    (e : Event) (cap : Nat)
    (hfind : s.events.find? (fun x => x.id == eid) = some e)
    (hcap : e.maxParticipants = some cap) (hpos : 0 < cap) :
    ((∀ cl ∈ calls, cl.lookupOk = true) →
       countByEvent s.participants eid ≤ cap →
       countByEvent (runRsvps s calls).participants eid ≤ cap)
    ∧ (cap ≤ countByEvent s.participants eid →
         (rsvpCreate s caller eid true now).2 = s
         ∧ ((rsvpCreate s caller eid true now).1 = .alreadyRsvpd
             ∨ (rsvpCreate s caller eid true now).1 = .eventFull)
         ∧ ((viewByEvent s.participants eid).any (fun p => p.userId == caller.id) = false →
              (rsvpCreate s caller eid true now).1 = .eventFull)
         ∧ rsvpStatus .eventFull = 400 ∧ rsvpError .eventFull = some "Event is full") := by
  constructor
  · intro hok hle
    exact runRsvps_countByEvent_le eid e cap hcap hpos calls s hfind hok hle
  · intro hge
    have hfull : capacityFull e.maxParticipants (viewByEvent s.participants eid).length = true := by
      rw [hcap]
      unfold capacityFull
      simp only [Bool.and_eq_true, decide_eq_true_eq]
      exact ⟨hpos, hge⟩
    unfold rsvpCreate
    rw [hfind]
    by_cases hdup : (viewByEvent s.participants eid).any (fun p => p.userId == caller.id) = true
    · simp [hdup, rsvpStatus, rsvpError]
    · simp [hdup, hfull, rsvpStatus, rsvpError]

/-- Claim C2 counterexample: the same user RSVPs twice to e2; the second
by-event lookup of the second call throws and the duplicate check is skipped, leaving
two participant documents for the pair (e2, ua). -/
theorem rsvp_duplicate_pair_counterexample :
    pairCount (runRsvps sNoCap
      [⟨uAlice, "e2", true, "t1"⟩, ⟨uAlice, "e2", false, "t2"⟩]).participants "e2" "ua" = 2 := by
  decide

/-- Claim C2 (amended): when every by-event lookup succeeds, sequentially
executed RSVP creation preserves "at most one participant per
(eventId, userId) pair", and a second RSVP by a user already holding one
fails with 400 and the duplicate-RSVP message, inserting nothing. -/
theorem rsvp_unique_per_pair_of_lookup_ok
    (s : State) (calls : List RsvpCall) (caller : User) (now eid uid : String) (e : Event)
    (hfind : s.events.find? (fun x => x.id == eid) = some e) :
    ((∀ cl ∈ calls, cl.lookupOk = true) →
       pairCount s.participants eid uid ≤ 1 →
       pairCount (runRsvps s calls).participants eid uid ≤ 1)
    ∧ (caller.id = uid → 1 ≤ pairCount s.participants eid uid →
         (rsvpCreate s caller eid true now).1 = .alreadyRsvpd
         ∧ (rsvpCreate s caller eid true now).2 = s
         ∧ rsvpStatus .alreadyRsvpd = 400
         ∧ rsvpError .alreadyRsvpd = some "Already RSVP\x27d to this event") := by
  constructor
  · intro hok hle
    exact runRsvps_pairCount_le eid uid calls s hok hle
  · intro huid hge
    have hdup : (viewByEvent s.participants eid).any (fun p => p.userId == caller.id) = true := by
      rw [huid]
      exact viewByEvent_any_of_pairCount_pos s.participants eid uid hge
    unfold rsvpCreate
    rw [hfind]
    simp [hdup, rsvpStatus, rsvpError]

/-- Witness for the amended Claim C1 at a concrete input: event e1 with
capacity 1 already holds the RSVP of Bob; a run keeps the count at 1 and a
direct attempt by Alice is rejected with "Event is full" without changing
the store. -/
theorem rsvp_capacity_bounded_of_lookup_ok_witness :
    countByEvent (runRsvps sFull [⟨uAlice, "e1", true, "t3"⟩]).participants "e1" ≤ 1
    ∧ (rsvpCreate sFull uAlice "e1" true "t3").2 = sFull
    ∧ (rsvpCreate sFull uAlice "e1" true "t3").1 = .eventFull := by
  have h := rsvp_capacity_bounded_of_lookup_ok sFull [⟨uAlice, "e1", true, "t3"⟩]
    uAlice "t3" "e1" evCap1 1 (by decide) (by decide) (by decide)
  exact ⟨h.1 (by decide) (by decide), (h.2 (by decide)).1, (h.2 (by decide)).2.2.1 (by decide)⟩

/-- Witness for the amended Claim C2 at a concrete input: Bob already
RSVPd to e1; the container run keeps the pair count at 1 and a second
attempt by Bob yields the duplicate-RSVP failure with the store unchanged. -/
theorem rsvp_unique_per_pair_of_lookup_ok_witness :
    pairCount (runRsvps sFull [⟨uBob, "e1", true, "t3"⟩]).participants "e1" "ub" ≤ 1
    ∧ (rsvpCreate sFull uBob "e1" true "t3").1 = .alreadyRsvpd
    ∧ (rsvpCreate sFull uBob "e1" true "t3").2 = sFull := by
  have h := rsvp_unique_per_pair_of_lookup_ok sFull [⟨uBob, "e1", true, "t3"⟩]
    uBob "t3" "e1" "ub" evCap1 (by decide)
  exact ⟨h.1 (by decide) (by decide), (h.2 (by decide) (by decide)).1,
    (h.2 (by decide) (by decide)).2.1⟩

/-- Claim C3: deleting an event as its creator (with the store behaving
normally: the by-event view succeeds and no destroy fails) removes the
event document and every participant referencing it; fetching any of those
participants by id afterwards finds nothing, and referential integrity is
preserved for the remaining participants. -/
theorem deleteEvent_cascade
    (s : State) (caller eid : String) (e : Event)
    (hfind : s.events.find? (fun x => x.id == eid) = some e)
    (hcreator : e.creatorId = caller)
    (hnodup : (s.participants.map (fun p => p.id)).Nodup) :
    (deleteEvent s caller eid true (fun _ => false)).1 = .ok
    ∧ (deleteEvent s caller eid true (fun _ => false)).2.1.events
        = s.events.eraseP (fun x => x.id == eid)
    ∧ (∀ p ∈ (deleteEvent s caller eid true (fun _ => false)).2.1.participants,
         ¬ p.eventId = eid)
    ∧ (∀ p ∈ s.participants, p.eventId = eid →
         (deleteEvent s caller eid true (fun _ => false)).2.1.participants.find?
           (fun q => q.id == p.id) = none)
    ∧ ((∀ p ∈ s.participants, ∃ ev ∈ s.events, ev.id = p.eventId) →
         ∀ p ∈ (deleteEvent s caller eid true (fun _ => false)).2.1.participants,
           ∃ ev ∈ (deleteEvent s caller eid true (fun _ => false)).2.1.events,
             ev.id = p.eventId) := by
  have hred : deleteEvent s caller eid true (fun _ => false) =
      (.ok,
        { s with
            participants := s.participants.filter (fun p => !(p.eventId == eid))
            events := s.events.eraseP (fun x => x.id == eid) },
        0) := by
    unfold deleteEvent
    rw [hfind]
    simp [hcreator]
  rw [hred]
  refine ⟨rfl, rfl, ?_, ?_, ?_⟩
  · intro p hp
    have := List.mem_filter.1 hp
    simpa using this.2
  · intro p hp hpe
    rw [List.find?_eq_none]
    intro q hq
    have hqmem := List.mem_filter.1 hq
    have hqe : ¬ q.eventId = eid := by simpa using hqmem.2
    intro hid
    have hqp : q = p :=
      List.inj_on_of_nodup_map hnodup hqmem.1 hp (by simpa using hid)
    exact hqe (hqp ▸ hpe)
  · intro hint p hp
    have hpmem := List.mem_filter.1 hp
    have hpe : ¬ p.eventId = eid := by simpa using hpmem.2
    obtain ⟨ev, hev, hevid⟩ := hint p hpmem.1
    refine ⟨ev, ?_, hevid⟩
    rw [List.mem_eraseP_of_neg]
    · exact hev
    · simp only [beq_iff_eq]
      intro h
      exact hpe (hevid.symm.trans h)

/-- Claim C4 counterexample: both participant destroys fail during the
cascade, yet exactly one console.error fires — the catch wraps the whole
Promise.all fan-out, so failures are not caught and logged per item. -/
theorem cascade_delete_single_log_counterexample :
    (viewByEvent sTwoRsvps.participants "e2").length = 2
    ∧ (deleteEvent sTwoRsvps "ua" "e2" true (fun pid => pid == "p1" || pid == "p2")).2.2 = 1
    ∧ (deleteEvent sTwoRsvps "ua" "e2" true (fun pid => pid == "p1" || pid == "p2")).2.1.participants
        = [pAliceTwo, pBobTwo] := by
  decide

/-- Claim C4 (amended): during cascade delete every participant destroy is
attempted independently (a failing destroy leaves only its own document
behind), the event is still removed, the response reports event-deletion
success, and failures are caught around the whole fan-out producing a
single log entry (not one per failing item). -/
theorem deleteEvent_fanout_best_effort
    (s : State) (caller eid : String) (e : Event) (f : String → Bool)
    (hfind : s.events.find? (fun x => x.id == eid) = some e)
    (hcreator : e.creatorId = caller) :
    (deleteEvent s caller eid true f).1 = .ok
    ∧ (deleteEvent s caller eid true f).2.1.events = s.events.eraseP (fun x => x.id == eid)
    ∧ (∀ p ∈ s.participants, p.eventId = eid → f p.id = false →
         p ∉ (deleteEvent s caller eid true f).2.1.participants)
    ∧ (∀ p ∈ s.participants, p.eventId = eid → f p.id = true →
         p ∈ (deleteEvent s caller eid true f).2.1.participants)
    ∧ (deleteEvent s caller eid true f).2.2 ≤ 1
    ∧ ((viewByEvent s.participants eid).any (fun p => f p.id) = true →
         (deleteEvent s caller eid true f).2.2 = 1) := by
  have hred : deleteEvent s caller eid true f =
      (.ok,
        { s with
            participants := s.participants.filter (fun p => !(p.eventId == eid) || f p.id)
            events := s.events.eraseP (fun x => x.id == eid) },
        if (viewByEvent s.participants eid).any (fun p => f p.id) then 1 else 0) := by
    unfold deleteEvent
    rw [hfind]
    simp [hcreator]
  rw [hred]
  refine ⟨rfl, rfl, ?_, ?_, ?_, ?_⟩
  · intro p hp hpe hpf hmem
    have := (List.mem_filter.1 hmem).2
    simp [hpe, hpf] at this
  · intro p hp hpe hpf
    exact List.mem_filter.2 ⟨hp, by simp [hpf]⟩
  · dsimp only
    split <;> simp
  · intro hany
    simp [hany]

/-- Claim C5: for both cancellation routes, a missing participant yields
NotFound and a participant owned by someone else yields Forbidden (for the
by-pair route, a userId different from the caller), and in every failure
case the store is left unchanged. -/
theorem cancel_notFound_forbidden
    (s : State) (caller pid eid uid : String) :
    ((∀ p ∈ s.participants, ¬ p.id = pid) →
       cancelById s caller pid = (.notFound, s))
    ∧ (∀ p, s.participants.find? (fun q => q.id == pid) = some p → ¬ p.userId = caller →
         cancelById s caller pid = (.forbidden, s))
    ∧ (¬ uid = caller →
         cancelByPair s caller eid uid = (.forbidden, s, 0))
    ∧ (uid = caller → (∀ p ∈ s.participants, ¬ (p.eventId = eid ∧ p.userId = uid)) →
         cancelByPair s caller eid uid = (.notFound, s, 0))
    ∧ cancelStatus .notFound = 404 ∧ cancelStatus .forbidden = 403 := by
  refine ⟨?_, ?_, ?_, ?_, rfl, rfl⟩
  · intro h
    have hnone : s.participants.find? (fun p => p.id == pid) = none := by
      rw [List.find?_eq_none]
      intro p hp
      simpa using h p hp
    unfold cancelById
    rw [hnone]
  · intro p hfind hne
    unfold cancelById
    rw [hfind]
    simp [hne]
  · intro hne
    unfold cancelByPair
    simp [hne]
  · intro hself h
    have hnone : (viewByEvent s.participants eid).find? (fun p => p.userId == uid) = none := by
      rw [List.find?_eq_none]
      intro p hp
      have hmem := List.mem_filter.1 hp
      have hpe : p.eventId = eid := by simpa using hmem.2
      simpa using fun hu => h p hmem.1 ⟨hpe, hu⟩
    unfold cancelByPair
    rw [hnone]
    simp [hself]

/-- Claim C6: event update and event deletion by a non-creator fail with
Forbidden leaving the whole store (event and participants) unchanged, and
conversely either operation succeeds only when the caller is the creator. -/
theorem event_mutation_creator_only
    (s : State) (caller eid : String) (e : Event) (u : UpdateFields) (now : String)
    (viewOk : Bool) (f : String → Bool)
    (hfind : s.events.find? (fun x => x.id == eid) = some e) :
    (¬ e.creatorId = caller →
       updateEvent s caller eid u now = (.forbidden, s)
       ∧ deleteEvent s caller eid viewOk f = (.forbidden, s, 0))
    ∧ ((updateEvent s caller eid u now).1 = .ok → e.creatorId = caller)
    ∧ ((deleteEvent s caller eid viewOk f).1 = .ok → e.creatorId = caller) := by
  refine ⟨?_, ?_, ?_⟩
  · intro hne
    constructor
    · unfold updateEvent
      rw [hfind]
      simp [hne]
    · unfold deleteEvent
      rw [hfind]
      simp [hne]
  · intro hok
    by_contra hne
    unfold updateEvent at hok
    rw [hfind] at hok
    simp [hne] at hok
  · intro hok
    by_contra hne
    unfold deleteEvent at hok
    rw [hfind] at hok
    simp [hne] at hok

/-- Claim C7: an update by the creator succeeds, rewrites only the stored
copy of this event, leaves the participants untouched, refreshes updatedAt,
overwrites exactly the supplied (truthy) fields and keeps every omitted
field — in particular an update supplying only a title keeps the
capacity. -/
theorem updateEvent_frame
    (s : State) (caller eid : String) (e : Event) (u : UpdateFields) (now : String)
    (hfind : s.events.find? (fun x => x.id == eid) = some e)
    (hcreator : e.creatorId = caller) :
    updateEvent s caller eid u now =
      (.ok,
        { s with events :=
            s.events.map (fun x => if x.id == eid then applyUpdate e u now else x) })
    ∧ (updateEvent s caller eid u now).2.participants = s.participants
    ∧ (applyUpdate e u now).updatedAt = now
    ∧ (u.title = none → (applyUpdate e u now).title = e.title)
    ∧ (∀ t, u.title = some t → ¬ t = "" → (applyUpdate e u now).title = t)
    ∧ (u.description = none → (applyUpdate e u now).description = e.description)
    ∧ (u.date = none → (applyUpdate e u now).date = e.date)
    ∧ (u.location = none → (applyUpdate e u now).location = e.location)
    ∧ (u.maxParticipants = none →
         (applyUpdate e u now).maxParticipants = e.maxParticipants)
    ∧ (applyUpdate e u now).id = e.id
    ∧ (applyUpdate e u now).creatorId = e.creatorId
    ∧ (applyUpdate e u now).createdAt = e.createdAt := by
  have hred : updateEvent s caller eid u now =
      (.ok,
        { s with events :=
            s.events.map (fun x => if x.id == eid then applyUpdate e u now else x) }) := by
    unfold updateEvent
    rw [hfind]
    simp [hcreator]
  refine ⟨hred, by rw [hred], rfl, ?_, ?_, ?_, ?_, ?_, ?_, rfl, rfl, rfl⟩
  · intro ht
    simp [applyUpdate, setStr, ht]
  · intro t ht hne
    simp [applyUpdate, setStr, ht, hne]
  · intro h
    simp [applyUpdate, setStr, h]
  · intro h
    simp [applyUpdate, setStr, h]
  · intro h
    simp [applyUpdate, setStr, h]
  · intro h
    simp [applyUpdate, h]

theorem viewByEvent_find?_userId (ps : List Participant) (eid uid : String) :
    (viewByEvent ps eid).find? (fun p => p.userId == uid)
      = ps.find? (fun p => p.eventId == eid && p.userId == uid) := by
  unfold viewByEvent
  rw [List.find?_filter]
  congr 1
  funext a
  by_cases h1 : a.eventId == eid <;> by_cases h2 : a.userId == uid <;> simp [h1, h2]

/-- Claim C8 (amended): the by-pair cancellation (for a caller cancelling
their own RSVP) treats zero matching rows as NotFound; with one or more
matching rows it deletes the first match, silently — no data-integrity
violation is logged (the log count stays 0). -/
theorem cancelByPair_first_match
    (s : State) (caller eid uid : String) (hself : uid = caller) :
    ((∀ p ∈ s.participants, ¬ (p.eventId = eid ∧ p.userId = uid)) →
       cancelByPair s caller eid uid = (.notFound, s, 0))
    ∧ (∀ p, s.participants.find? (fun q => q.eventId == eid && q.userId == uid) = some p →
         cancelByPair s caller eid uid =
           (.ok, { s with participants := s.participants.eraseP (fun q => q.id == p.id) }, 0)) := by
  constructor
  · intro h
    have hnone : (viewByEvent s.participants eid).find? (fun p => p.userId == uid) = none := by
      rw [List.find?_eq_none]
      intro p hp
      have hmem := List.mem_filter.1 hp
      have hpe : p.eventId = eid := by simpa using hmem.2
      simpa using fun hu => h p hmem.1 ⟨hpe, hu⟩
    rw [hself] at hnone
    unfold cancelByPair
    rw [hself]
    simp only [bne_self_eq_false, Bool.false_eq_true, if_false]
    rw [hnone]
  · intro p hfirst
    have hsome : (viewByEvent s.participants eid).find? (fun q => q.userId == uid) = some p := by
      rw [viewByEvent_find?_userId]
      exact hfirst
    rw [hself] at hsome
    unfold cancelByPair
    rw [hself]
    simp only [bne_self_eq_false, Bool.false_eq_true, if_false]
    rw [hsome]

/-- Claim C9: when the by-event view call inside RSVP creation fails
(`lookupOk = false`), the handler swallows the error, skips both the
duplicate check and the capacity check, inserts the participant and
returns 201 — the count for the event and for the pair of the caller both grow
by one unconditionally. -/
theorem rsvp_lookup_failure_skips_checks
    (s : State) (caller : User) (eid now : String) (e : Event)
    (hfind : s.events.find? (fun x => x.id == eid) = some e) :
    rsvpCreate s caller eid false now
      = (.created,
          { s with
              participants := s.participants ++ [mkParticipant s caller eid e now]
              nextId := s.nextId + 1 })
    ∧ rsvpStatus .created = 201
    ∧ countByEvent (rsvpCreate s caller eid false now).2.participants eid
        = countByEvent s.participants eid + 1
    ∧ pairCount (rsvpCreate s caller eid false now).2.participants eid caller.id
        = pairCount s.participants eid caller.id + 1 := by
  have hred : rsvpCreate s caller eid false now
      = (.created,
          { s with
              participants := s.participants ++ [mkParticipant s caller eid e now]
              nextId := s.nextId + 1 }) := by
    unfold rsvpCreate
    rw [hfind]
    rfl
  refine ⟨hred, rfl, ?_, ?_⟩
  · rw [hred, countByEvent_append]
    simp [mkParticipant]
  · rw [hred, pairCount_append]
    simp [mkParticipant]

/-- Claim C10 counterexample: a syntactically valid bearer token whose
decoded subject is absent from the users database is answered with HTTP
401, not 404. -/
theorem auth_missing_user_counterexample :
    authMiddleware [] (some "tok") (fun t => if t == "tok" then some "ua" else none)
        = .userNotFound
    ∧ authStatus .userNotFound = 401
    ∧ ¬ authStatus .userNotFound = 404 := by
  decide

/-- Claim C10 (amended): a valid credential whose subject no longer exists
fails with 401 Unauthorized carrying the body "User not found" — the same
status as a missing or invalid credential, distinguished only by the
message. -/
theorem auth_missing_user_distinct_message
    (users : List User) (t uid : String) (verify : String → Option String)
    (hverify : verify t = some uid)
    (hmissing : ∀ u ∈ users, ¬ u.id = uid) :
    authMiddleware users (some t) verify = .userNotFound
    ∧ authStatus .userNotFound = 401
    ∧ authError .userNotFound = some "User not found"
    ∧ ¬ authError .userNotFound = authError .invalidToken
    ∧ ¬ authError .userNotFound = authError .noToken
    ∧ authStatus .userNotFound = authStatus .invalidToken := by
  have hnone : users.find? (fun u => u.id == uid) = none := by
    rw [List.find?_eq_none]
    intro u hu
    simpa using hmissing u hu
  refine ⟨?_, rfl, rfl, by decide, by decide, rfl⟩
  unfold authMiddleware
  dsimp only
  rw [hverify]
  dsimp only
  rw [hnone]

/-- Claim C8 counterexample: two participant rows match the pair (e1, ua);
the by-pair cancellation deletes the first match but logs nothing — the
console.error count stays 0, so the data-integrity violation is not
logged. -/
theorem cancelByPair_multiple_matches_counterexample :
    pairCount sDup.participants "e1" "ua" = 2
    ∧ cancelByPair sDup "ua" "e1" "ua" = (.ok, { sDup with participants := [pDupB] }, 0) := by
  decide

/-- Witness for Claim C3 at a concrete input: Alice deletes her event e2;
the deletion succeeds, the own RSVP of Alice can no longer be fetched by id, and
the event list loses e2. -/
theorem deleteEvent_cascade_witness :
    (deleteEvent sTwoRsvps "ua" "e2" true (fun _ => false)).1 = .ok
    ∧ (deleteEvent sTwoRsvps "ua" "e2" true (fun _ => false)).2.1.participants.find?
        (fun q => q.id == pAliceTwo.id) = none
    ∧ (deleteEvent sTwoRsvps "ua" "e2" true (fun _ => false)).2.1.events
        = sTwoRsvps.events.eraseP (fun x => x.id == "e2") := by
  have h := deleteEvent_cascade sTwoRsvps "ua" "e2" evNoCap (by decide) (by decide) (by decide)
  exact ⟨h.1, h.2.2.2.1 pAliceTwo (by decide) (by decide), h.2.1⟩

/-- Witness for the amended Claim C4 at a concrete input: the destroy of
participant p1 fails while that of p2 succeeds; p2 is still deleted, p1 remains,
the event is removed with an ok response, and exactly one log entry is
produced. -/
theorem deleteEvent_fanout_best_effort_witness :
    (deleteEvent sTwoRsvps "ua" "e2" true (fun pid => pid == "p1")).1 = .ok
    ∧ pBobTwo ∉ (deleteEvent sTwoRsvps "ua" "e2" true (fun pid => pid == "p1")).2.1.participants
    ∧ pAliceTwo ∈ (deleteEvent sTwoRsvps "ua" "e2" true (fun pid => pid == "p1")).2.1.participants
    ∧ (deleteEvent sTwoRsvps "ua" "e2" true (fun pid => pid == "p1")).2.2 = 1 := by
  have h := deleteEvent_fanout_best_effort sTwoRsvps "ua" "e2" evNoCap
    (fun pid => pid == "p1") (by decide) (by decide)
  exact ⟨h.1, h.2.2.1 pBobTwo (by decide) (by decide) (by decide),
    h.2.2.2.1 pAliceTwo (by decide) (by decide) (by decide),
    h.2.2.2.2.2 (by decide)⟩

/-- Witness for Claim C5 at concrete inputs: a missing participant id and a
missing pair yield NotFound, and cancelling the RSVP of Bob as Alice (by id or by
pair) yields Forbidden, always leaving the store unchanged. -/
theorem cancel_notFound_forbidden_witness :
    cancelById sFull "ua" "zz" = (.notFound, sFull)
    ∧ cancelById sFull "ua" "p0" = (.forbidden, sFull)
    ∧ cancelByPair sFull "ua" "e1" "ub" = (.forbidden, sFull, 0)
    ∧ cancelByPair sFull "ub" "e9" "ub" = (.notFound, sFull, 0) := by
  have h1 := cancel_notFound_forbidden sFull "ua" "zz" "e1" "ub"
  have h2 := cancel_notFound_forbidden sFull "ua" "p0" "e1" "ub"
  have h3 := cancel_notFound_forbidden sFull "ub" "p0" "e9" "ub"
  exact ⟨h1.1 (by decide), h2.2.1 pBobOne (by decide) (by decide), h1.2.2.1 (by decide),
    h3.2.2.2.1 (by decide) (by decide)⟩

/-- Witness for Claim C6 at a concrete input: Bob, who is not the creator of
e1, can neither update nor delete it; both calls return Forbidden with the
store unchanged. -/
theorem event_mutation_creator_only_witness :
    updateEvent sFull "ub" "e1" emptyUpdate "t9" = (.forbidden, sFull)
    ∧ deleteEvent sFull "ub" "e1" true (fun _ => false) = (.forbidden, sFull, 0) := by
  have h := event_mutation_creator_only sFull "ub" "e1" evCap1 emptyUpdate "t9" true
    (fun _ => false) (by decide)
  exact ⟨(h.1 (by decide)).1, (h.1 (by decide)).2⟩

/-- Witness for Claim C7 at a concrete input: Alice updates only the title
of e1; the participants are untouched, the capacity keeps its old value,
the title is overwritten and updatedAt is refreshed. -/
theorem updateEvent_frame_witness :
    (updateEvent sFull "ua" "e1" titleUpdate "t9").2.participants = sFull.participants
    ∧ (applyUpdate evCap1 titleUpdate "t9").maxParticipants = evCap1.maxParticipants
    ∧ (applyUpdate evCap1 titleUpdate "t9").title = "Evening Standup"
    ∧ (applyUpdate evCap1 titleUpdate "t9").updatedAt = "t9" := by
  have h := updateEvent_frame sFull "ua" "e1" evCap1 titleUpdate "t9" (by decide) (by decide)
  exact ⟨h.2.1, h.2.2.2.2.2.2.2.2.1 (by decide),
    h.2.2.2.2.1 "Evening Standup" (by decide) (by decide), h.2.2.1⟩

/-- Witness for the amended Claim C8 at concrete inputs: with two rows
matching (e1, ua) the first one (q1) is deleted without any log entry, and
with no row matching (e9, ua) the call yields NotFound. -/
theorem cancelByPair_first_match_witness :
    cancelByPair sDup "ua" "e1" "ua"
      = (.ok, { sDup with participants := sDup.participants.eraseP (fun q => q.id == pDupA.id) }, 0)
    ∧ cancelByPair sDup "ua" "e9" "ua" = (.notFound, sDup, 0) := by
  have h1 := cancelByPair_first_match sDup "ua" "e1" "ua" (by decide)
  have h2 := cancelByPair_first_match sDup "ua" "e9" "ua" (by decide)
  exact ⟨h1.2 pDupA (by decide), h2.1 (by decide)⟩

/-- Witness for Claim C9 at a concrete input: e1 is full and Bob already
holds an RSVP, yet with the by-event lookup failing his second RSVP is
inserted and reported created. -/
theorem rsvp_lookup_failure_skips_checks_witness :
    rsvpCreate sFull uBob "e1" false "t9"
      = (.created,
          { sFull with
              participants := sFull.participants ++ [mkParticipant sFull uBob "e1" evCap1 "t9"]
              nextId := sFull.nextId + 1 }) :=
  (rsvp_lookup_failure_skips_checks sFull uBob "e1" "t9" evCap1 (by decide)).1

/-- Witness for the amended Claim C10 at a concrete input: the token decodes
to subject ux, absent from the users database; the middleware answers 401
with body "User not found". -/
theorem auth_missing_user_distinct_message_witness :
    authMiddleware [uAlice] (some "tok") (fun t => if t == "tok" then some "ux" else none)
        = .userNotFound
    ∧ authStatus .userNotFound = 401
    ∧ authError .userNotFound = some "User not found" := by
  have h := auth_missing_user_distinct_message [uAlice] "tok" "ux"
    (fun t => if t == "tok" then some "ux" else none) (by decide) (by decide)
  exact ⟨h.1, h.2.1, h.2.2.1⟩

end EventRsvp
